import Mathlib

/-!
Shallow embedding of `main.py` ("jump-or-die"): a side-scrolling arcade game
with a physics-driven player circle and procedurally generated gap obstacles.
Python floats are modelled as exact rationals (ℚ), Python ints as ℤ, and every
call to the `random` module is skolemised: each draw consumes an explicit
natural-number oracle value, and `random.randint(a, b)` with `a > b` (which
raises `ValueError` in Python) is modelled as `none`.
-/

attribute [local semireducible] Rat.add Rat.mul Rat.inv Rat.sub Rat.ofScientific

set_option maxRecDepth 8000

namespace JumpOrDie

/-- Truncation toward zero, the behaviour of Python's `int(...)` on floats. -/
def pyInt (q : ℚ) : ℤ := if 0 ≤ q then ⌊q⌋ else ⌈q⌉

/-- Constant `WIDTH` from `main.py`. -/
def WIDTH : ℤ := 700

/-- Constant `HEIGHT` from `main.py`. -/
def HEIGHT : ℤ := 1000

/-- Constant `PLAYER_RADIUS = int(HEIGHT * 0.01)`. -/
def PLAYER_RADIUS : ℤ := pyInt ((HEIGHT : ℚ) * (1/100))

/-- Constant `FPS = 60`. -/
def FPS : ℕ := 60

/-- The `COLORS` list from `main.py`. -/
def COLORS : List (ℕ × ℕ × ℕ) :=
  [(0, 0, 255), (0, 255, 0), (255, 0, 0), (255, 255, 0),
   (255, 165, 0), (128, 0, 128), (0, 255, 255), (255, 192, 203)]

/-- Model of `random.randint(a, b)`: a value in `[a, b]`, selected by the oracle `r`;
`none` models the `ValueError` raised when `a > b`. -/
def randint (a b : ℤ) (r : ℕ) : Option ℤ :=
  if a ≤ b then some (a + ((r % (b - a + 1).toNat : ℕ) : ℤ)) else none

/-- Model of `random.choice(l)`, selected by the oracle `r`. -/
def choice (l : List (ℕ × ℕ × ℕ)) (r : ℕ) : ℕ × ℕ × ℕ :=
  l.getD (r % l.length) (0, 0, 0)

/-! ## Player (`class Player`)

The fields `x`, `radius`, `jump_power`, `gravity` and `max_jumps_per_second`
are set in `Player.__init__` and never reassigned anywhere in `main.py`, so
they are embedded as constants; the mutable state is `(y, vel_y)`. -/

/-- Field `self.x = WIDTH * 0.25`. -/
def player_x : ℚ := (WIDTH : ℚ) * (1/4)

/-- Field `self.radius = PLAYER_RADIUS`. -/
def player_radius : ℤ := PLAYER_RADIUS

/-- Field `self.jump_power = -HEIGHT * 0.012`. -/
def jump_power : ℚ := -(HEIGHT : ℚ) * (12/1000)

/-- Field `self.gravity = HEIGHT * 0.0008`. -/
def gravity : ℚ := (HEIGHT : ℚ) * (8/10000)

/-- Field `self.max_jumps_per_second = 5`. -/
def max_jumps_per_second : ℕ := 5

/-- The mutable part of a `Player` object: vertical position and velocity. -/
structure PlayerState where
  y : ℚ
  vel_y : ℚ
deriving DecidableEq, Repr

/-- The player produced by `Player.__init__`: `y = HEIGHT * 0.5`, `vel_y = 0`. -/
def Player.init : PlayerState := ⟨(HEIGHT : ℚ) * (1/2), 0⟩

/-- Method `Player.jump`: set the vertical velocity to the jump power. -/
def Player.jump (p : PlayerState) : PlayerState := ⟨p.y, jump_power⟩

/-- Method `Player.update_position`: apply gravity to the velocity, add the velocity
to the position, then clamp to the ground (`y >= HEIGHT - radius`). -/
def update_position (p : PlayerState) : PlayerState :=
  let v := p.vel_y + gravity
  let y := p.y + v
  if (HEIGHT : ℚ) - player_radius ≤ y then ⟨(HEIGHT : ℚ) - player_radius, 0⟩
  else ⟨y, v⟩

/-! ## Obstacle (`class Obstacle`) -/

/-- An `Obstacle` object as built by `Obstacle.__init__`. -/
structure Obstacle where
  world_x : ℚ
  width : ℤ
  color : ℕ × ℕ × ℕ
  gap : ℤ
  gap_y : ℤ
  r1_y : ℤ
  r1_height : ℤ
  r2_y : ℤ
  r2_height : ℤ
deriving DecidableEq, Repr

/-- Constructor `Obstacle.__init__(x, gap, gap_y)`: width is `random.randint(25, 25)`,
color is `random.choice(COLORS)`, `gap_y` is clamped by
`max(0, min(HEIGHT - gap, gap_y))`, and the two rectangles are derived. -/
def mkObstacle (x : ℚ) (gap gy : ℤ) (rw rc : ℕ) : Option Obstacle :=
  (randint 25 25 rw).map fun w =>
    let gap_y := max 0 (min (HEIGHT - gap) gy)
    { world_x := x
      width := w
      color := choice COLORS rc
      gap := gap
      gap_y := gap_y
      r1_y := 0
      r1_height := gap_y
      r2_y := gap_y + gap
      r2_height := HEIGHT - (gap_y + gap) }

/-- Method `Obstacle.get_screen_x`: the obstacle's world x minus the world offset. -/
def get_screen_x (o : Obstacle) (world_x : ℤ) : ℚ := o.world_x - (world_x : ℚ)

/-! ## Game (`class Game`)

`speed` is set to `2` in `Game.__init__` and never reassigned.  The fields
mutated during play are `player`, `world_x`, `obstacles` and `game_over`;
`difficulty` and the four difficulty tables are set in `__init__` and are
carried in the state so that their (non-)use by the update routines can be
stated. -/

/-- Field `self.speed = 2`. -/
def speed : ℤ := 2

/-- The state of a `Game` object. -/
structure GameState where
  player : PlayerState
  world_x : ℤ
  obstacles : List Obstacle
  game_over : Bool
  difficulty : ℤ
  min_gap_difficulty : List (ℤ × ℚ)
  max_gap_difficulty : List (ℤ × ℚ)
  min_distance_difficulty : List (ℤ × ℚ)
  max_distance_difficulty : List (ℤ × ℚ)
deriving DecidableEq, Repr

/-- The `min_gap_difficulty` dict literal from `Game.__init__`. -/
def init_min_gap_difficulty : List (ℤ × ℚ) :=
  [(1, 2), (2, 18/10), (3, 18/10), (4, 17/10), (5, 17/10), (6, 16/10),
   (7, 15/10), (8, 13/10), (9, 13/10), (10, 12/10), (11, 11/10)]

/-- The `max_gap_difficulty` dict literal from `Game.__init__`. -/
def init_max_gap_difficulty : List (ℤ × ℚ) :=
  [(1, 2), (2, 2), (3, 19/10), (4, 19/10), (5, 18/10), (6, 18/10),
   (7, 17/10), (8, 17/10), (9, 16/10), (10, 16/10), (11, 15/10)]

/-- The `min_distance_difficulty` dict literal from `Game.__init__`. -/
def init_min_distance_difficulty : List (ℤ × ℚ) :=
  [(1, 2), (2, 2), (3, 2), (4, 2), (5, 2), (6, 2),
   (7, 2), (8, 2), (9, 2), (10, 2), (11, 2)]

/-- The `max_distance_difficulty` dict literal from `Game.__init__`. -/
def init_max_distance_difficulty : List (ℤ × ℚ) :=
  [(1, 10), (2, 9), (3, 8), (4, 7), (5, 6), (6, 5),
   (7, 4), (8, 3), (9, 2), (10, 1), (11, 0)]

/-- The game state produced by `Game.__init__`. -/
def Game.init : GameState :=
  { player := Player.init
    world_x := 0
    obstacles := []
    game_over := false
    difficulty := 10
    min_gap_difficulty := init_min_gap_difficulty
    max_gap_difficulty := init_max_gap_difficulty
    min_distance_difficulty := init_min_distance_difficulty
    max_distance_difficulty := init_max_distance_difficulty }

/-- The body of the inner loop of `Game.collision` for one rectangle
`(ry, rh)` of an obstacle whose screen x is `rx`: clamp the player's centre
`(px, py)` to the rectangle and test the squared distance strictly against
the squared radius. -/
def circleRectCollides (px py rad rx : ℚ) (w ry rh : ℤ) : Bool :=
  let closest_x := max rx (min px (rx + (w : ℚ)))
  let closest_y := max (ry : ℚ) (min py ((ry : ℚ) + (rh : ℚ)))
  let dx := px - closest_x
  let dy := py - closest_y
  decide (dx * dx + dy * dy < rad * rad)

/-- Method `Game.collision`: the player collides with the top or bottom rectangle of
some live obstacle. -/
def collision (g : GameState) : Bool :=
  g.obstacles.any fun o =>
    let x := get_screen_x o g.world_x
    circleRectCollides player_x g.player.y (player_radius : ℚ) x o.width o.r1_y o.r1_height ||
    circleRectCollides player_x g.player.y (player_radius : ℚ) x o.width o.r2_y o.r2_height

/-- The `rise` value recomputed inside `Game.calculate_gap_height`:
`t_up = -v0 / gravity`, `rise = abs(v0 * t_up + 0.5 * gravity * t_up ** 2)`. -/
def gapRise : ℚ :=
  let v0 := jump_power
  let t_up := -v0 / gravity
  |v0 * t_up + (1/2) * gravity * t_up ^ 2|

/-- Method `Game.calculate_gap_height`: `min_gap = int(((radius * 2) + rise) * 1.5)`,
`max_gap = min_gap`, then `random.randint(min_gap, max_gap)`. -/
def calculate_gap_height (r : ℕ) : Option ℤ :=
  let min_gap := pyInt (((player_radius : ℚ) * 2 + gapRise) * (3/2))
  let max_gap := min_gap
  randint min_gap max_gap r

/-- One iteration of the `while True` loop of `Game.calculate_spawn_distance`:
`y += vel_y` and then `vel_y += gravity` (position before gravity). -/
def airtimeStep (y v : ℚ) : ℚ × ℚ := (y + v, v + gravity)

/-- The `while True` loop of `Game.calculate_spawn_distance`, with fuel:
starting from `(y, vel_y)`, step until `y >= 0`, counting frames. -/
def airtimeLoop (y v : ℚ) (frames : ℕ) : ℕ → Option ℕ
  | 0 => none
  | fuel + 1 =>
    let s := airtimeStep y v
    if 0 ≤ s.1 then some (frames + 1) else airtimeLoop s.1 s.2 (frames + 1) fuel

/-- Method `Game.calculate_spawn_distance`: frames of airtime from a jump, then
`min_dist = int(frames * speed / 2 + radius * 2)`,
`max_dist = int(frames * speed * 1.5 + radius * 2)`, and a random draw. -/
def calculate_spawn_distance (r : ℕ) : Option (ℤ × ℤ × ℤ) :=
  (airtimeLoop 0 jump_power 0 1000).bind fun frames =>
    let jump_distance_x : ℤ := (frames : ℤ) * speed
    let min_dist := pyInt ((jump_distance_x : ℚ) / 2 + (player_radius : ℚ) * 2)
    let max_dist := pyInt ((jump_distance_x : ℚ) * (3/2) + (player_radius : ℚ) * 2)
    (randint min_dist max_dist r).map fun d => (min_dist, max_dist, d)

/-- Value `math.floor(FPS / max_jumps_per_second)` from
`Game.calculate_max_height_increase`. -/
def frames_per_jump : ℕ := (⌊(FPS : ℚ) / (max_jumps_per_second : ℚ)⌋).toNat

/-- One iteration of the loop of `Game.calculate_max_height_increase`, acting
on `(v, y, max_increase)` at frame `i`: a jump impulse on every
`frames_per_jump`-th frame, then `v += gravity`, `y += v`, and track the
minimum of `y`. -/
def mhiStep (fpj : ℕ) (s : ℚ × ℚ × ℚ) (i : ℕ) : ℚ × ℚ × ℚ :=
  let v0 := if i % fpj = 0 then s.1 + jump_power else s.1
  let v := v0 + gravity
  let y := s.2.1 + v
  let m := if y < s.2.2 then y else s.2.2
  (v, y, m)

/-- Method `Game.calculate_max_height_increase(x)`: forward-simulate
`floor(x / speed)` frames jumping at the maximum rate, returning the negation
of the most negative displacement reached. -/
def calculate_max_height_increase (x : ℤ) : ℚ :=
  let frames := (⌊(x : ℚ) / (speed : ℚ)⌋).toNat
  let s := (List.range frames).foldl (mhiStep frames_per_jump) (0, 0, 0)
  Neg.neg s.2.2

/-- One iteration of the loop of `Game.calculate_max_height_decrease`, acting
on `(v, y)`: `v += gravity` then `y += v`. -/
def mhdStep (s : ℚ × ℚ) (_ : ℕ) : ℚ × ℚ :=
  let v := s.1 + gravity
  (v, s.2 + v)

/-- Method `Game.calculate_max_height_decrease(x)`: free-fall for
`floor(x / speed)` frames, returning `max(0, y)`. -/
def calculate_max_height_decrease (x : ℤ) : ℚ :=
  let frames := (⌊(x : ℚ) / (speed : ℚ)⌋).toNat
  let s := (List.range frames).foldl mhdStep (0, 0)
  max 0 s.2

/-- Method `Game.calculate_gap_position(y0, x_distance, gap_height)`:
`highest = floor(max(0, y0 - max_inc))`,
`lowest = ceil(min(HEIGHT - gap_height, y0 + max_dec))`,
`gap_position = random.randint(highest, lowest)` (no swap of the bounds). -/
def calculate_gap_position (y0 x_distance gap_height : ℤ) (r : ℕ) :
    Option (ℤ × ℤ × ℤ) :=
  let max_inc := calculate_max_height_increase x_distance
  let max_dec := calculate_max_height_decrease x_distance
  let highest := ⌊max 0 ((y0 : ℚ) - max_inc)⌋
  let lowest := ⌈min ((HEIGHT : ℚ) - (gap_height : ℚ)) ((y0 : ℚ) + max_dec)⌉
  (randint highest lowest r).map fun gp => (highest, lowest, gp)

/-- The oracle values consumed by one call to `Game.spawn_obstacle`, in the
order the `random` module is consulted: spawn distance, gap height, gap
position, obstacle width, obstacle color. -/
structure Oracle where
  sd : ℕ
  gh : ℕ
  gp : ℕ
  w : ℕ
  c : ℕ
deriving DecidableEq, Repr

/-- Value `prev_gap_y` as computed at the top of `Game.spawn_obstacle`. -/
def prev_gap_y (g : GameState) : ℤ :=
  match g.obstacles.getLast? with
  | none => HEIGHT / 2
  | some o => o.gap_y

/-- Value `last_obstacle_x` as computed at the top of `Game.spawn_obstacle`
(`WIDTH * 0.6` for a fresh run). -/
def last_obstacle_x (g : GameState) : ℚ :=
  match g.obstacles.getLast? with
  | none => (WIDTH : ℚ) * (6/10)
  | some o => o.world_x

/-- Value `last_obstacle_width` as computed at the top of `Game.spawn_obstacle`. -/
def last_obstacle_width (g : GameState) : ℤ :=
  match g.obstacles.getLast? with
  | none => 0
  | some o => o.width

/-- Method `Game.spawn_obstacle`: compute the spawn-distance range, place the new
obstacle at `last_obstacle_x + last_obstacle_width + min_spawn_distance`,
choose the gap height, choose the gap position using `min_spawn_distance`
as the horizontal distance, and append the obstacle. -/
def spawn_obstacle (g : GameState) (r : Oracle) : Option GameState := do
  let (min_spawn_distance, _max_spawn_distance, _spawn_distance_random) ←
    calculate_spawn_distance r.sd
  let spawn_x := last_obstacle_x g + (last_obstacle_width g : ℚ) +
    (min_spawn_distance : ℚ)
  let gap_height ← calculate_gap_height r.gh
  let (_hi, _lo, gap_y_position_random) ←
    calculate_gap_position (prev_gap_y g) min_spawn_distance gap_height r.gp
  let ob ← mkObstacle spawn_x gap_height gap_y_position_random r.w r.c
  pure { g with obstacles := g.obstacles ++ [ob] }

/-- The spawn condition of `Game.update_world`:
`not self.obstacles or self.obstacles[-1].get_screen_x(self.world_x) < WIDTH`. -/
def should_spawn (g : GameState) : Bool :=
  match g.obstacles.getLast? with
  | none => true
  | some o => decide (get_screen_x o g.world_x < (WIDTH : ℚ))

/-- The first two mutations of `Game.update_world`:
`self.world_x += self.speed` and `self.player.update_position()`. -/
def scroll_and_move (g : GameState) : GameState :=
  let g1 := { g with world_x := g.world_x + speed }
  { g1 with player := update_position g1.player }

/-- The obstacle-removal step of `Game.update_world`: keep obstacles with
`get_screen_x(world_x) + width > 0`. -/
def cleanup (g : GameState) : GameState :=
  { g with obstacles :=
      g.obstacles.filter fun o => decide (0 < get_screen_x o g.world_x + (o.width : ℚ)) }

/-- The final step of `Game.update_world`: set `game_over` on collision. -/
def check_collision (g : GameState) : GameState :=
  if collision g then { g with game_over := true } else g

/-- Method `Game.update_world`: when not game over, scroll the world, update the
player, possibly spawn an obstacle, drop off-screen obstacles, and check for
a collision. -/
def update_world (g : GameState) (r : Oracle) : Option GameState :=
  if g.game_over then some g else
  let g2 := scroll_and_move g
  let spawned : Option GameState :=
    if should_spawn g2 then spawn_obstacle g2 r else some g2
  spawned.map fun g3 => check_collision (cleanup g3)

/-- Iterate `Game.update_world` over a list of per-tick oracles. -/
def runTicks (g : GameState) : List Oracle → Option GameState
  | [] => some g
  | r :: rs => (update_world g r).bind fun g1 => runTicks g1 rs

/-- Method `Game.reset_game`: a fresh player, `world_x = 0`, no obstacles, and
`game_over = False`. -/
def reset_game (g : GameState) : GameState :=
  { g with player := Player.init, world_x := 0, obstacles := [], game_over := false }

/-- The fields of a `GameState` that the update routines mutate. -/
def projMut (g : GameState) : PlayerState × ℤ × List Obstacle × Bool :=
  (g.player, g.world_x, g.obstacles, g.game_over)

/-- Replace the difficulty level and the four difficulty tables. -/
def setCfg (g : GameState) (d : ℤ) (t1 t2 t3 t4 : List (ℤ × ℚ)) : GameState :=
  { g with difficulty := d
           min_gap_difficulty := t1
           max_gap_difficulty := t2
           min_distance_difficulty := t3
           max_distance_difficulty := t4 }

end JumpOrDie

namespace JumpOrDie

/-! ## Theorems -/

/-- Drawing `random.randint(a, a)` always succeeds and returns `a`. -/
theorem randint_const (a : ℤ) (r : ℕ) : randint a a r = some a := by
  simp [randint]

/-- Construction `Obstacle.__init__` always succeeds and produces this record. -/
theorem mkObstacle_some (x : ℚ) (gap gy : ℤ) (rw rc : ℕ) :
    mkObstacle x gap gy rw rc =
      some { world_x := x
             width := 25
             color := choice COLORS rc
             gap := gap
             gap_y := max 0 (min (HEIGHT - gap) gy)
             r1_y := 0
             r1_height := max 0 (min (HEIGHT - gap) gy)
             r2_y := max 0 (min (HEIGHT - gap) gy) + gap
             r2_height := HEIGHT - (max 0 (min (HEIGHT - gap) gy) + gap) } := by
  rw [mkObstacle, randint_const]
  rfl

/-- Characterisation of a successful `Game.spawn_obstacle` call: the spawn
distance triple, gap height, and gap position that were drawn, and the
obstacle that was appended.  The world position and the distance handed to
`calculate_gap_position` are both the minimum spawn distance. -/
theorem spawn_obstacle_some (g : GameState) (r : Oracle) (g' : GameState)
    (h : spawn_obstacle g r = some g') :
    ∃ mn mx d gh hi lo gp : ℤ, ∃ ob : Obstacle,
      calculate_spawn_distance r.sd = some (mn, mx, d) ∧
      calculate_gap_height r.gh = some gh ∧
      calculate_gap_position (prev_gap_y g) mn gh r.gp = some (hi, lo, gp) ∧
      mkObstacle (last_obstacle_x g + (last_obstacle_width g : ℚ) + (mn : ℚ))
        gh gp r.w r.c = some ob ∧
      g' = { g with obstacles := g.obstacles ++ [ob] } := by
  simp only [spawn_obstacle, bind, Option.bind_eq_some, Option.pure_def,
    Option.some.injEq] at h
  obtain ⟨⟨mn, mx, d⟩, h1, h⟩ := h
  dsimp only at h
  obtain ⟨gh, h2, h⟩ := h
  obtain ⟨⟨hi, lo, gp⟩, h3, h⟩ := h
  dsimp only at h
  obtain ⟨ob, h4, h5⟩ := h
  exact ⟨mn, mx, d, gh, hi, lo, gp, ob, h1, h2, h3, h4, h5.symm⟩

section GapPosition

/-- C1 (counterexample): at `y0 = 500`, `d = 0`, `h = 2000` the reachability
window is inverted and `calculate_gap_position` does not return: the
`random.randint` call fails (`ValueError` in Python), modelled as `none` —
no swap of the bounds takes place. -/
theorem gap_position_inverted_cex :
    calculate_gap_position 500 0 2000 0 = none := by decide

/-- C1 (amended): whenever the computed window is inverted
(`lowest < highest`), `calculate_gap_position` does not swap or clamp the
bounds; the sampling step fails and the call crashes (returns `none`). -/
theorem gap_position_inverted_none (y0 d h : ℤ) (r : ℕ)
    (hinv : ⌈min ((HEIGHT : ℚ) - (h : ℚ)) ((y0 : ℚ) + calculate_max_height_decrease d)⌉ <
      ⌊max 0 ((y0 : ℚ) - calculate_max_height_increase d)⌋) :
    calculate_gap_position y0 d h r = none := by
  simp only [calculate_gap_position, randint]
  rw [if_neg (not_le.mpr hinv)]
  rfl

/-- Witness for the C1 amended theorem at `(500, 0, 2000)`. -/
theorem gap_position_inverted_none_witness :
    (⌈min ((HEIGHT : ℚ) - ((2000 : ℤ) : ℚ)) (((500 : ℤ) : ℚ) + calculate_max_height_decrease 0)⌉ <
      ⌊max 0 (((500 : ℤ) : ℚ) - calculate_max_height_increase 0)⌋) ∧
    calculate_gap_position 500 0 2000 0 = none :=
  ⟨by decide, gap_position_inverted_none 500 0 2000 0 (by decide)⟩

/-- C2: on a non-degenerate window, `calculate_gap_position` returns exactly
`highest = floor(max(0, y0 - max_height_increase(d)))` and
`lowest = ceil(min(HEIGHT - h, y0 + max_height_decrease(d)))`, and a gap
position lying in `[highest, lowest]` inclusive. -/
theorem gap_position_in_window (y0 d h : ℤ) (r : ℕ)
    (hw : ⌊max 0 ((y0 : ℚ) - calculate_max_height_increase d)⌋ ≤
      ⌈min ((HEIGHT : ℚ) - (h : ℚ)) ((y0 : ℚ) + calculate_max_height_decrease d)⌉) :
    ∃ gp : ℤ,
      calculate_gap_position y0 d h r =
        some (⌊max 0 ((y0 : ℚ) - calculate_max_height_increase d)⌋,
              ⌈min ((HEIGHT : ℚ) - (h : ℚ)) ((y0 : ℚ) + calculate_max_height_decrease d)⌉,
              gp) ∧
      ⌊max 0 ((y0 : ℚ) - calculate_max_height_increase d)⌋ ≤ gp ∧
      gp ≤ ⌈min ((HEIGHT : ℚ) - (h : ℚ)) ((y0 : ℚ) + calculate_max_height_decrease d)⌉ := by
  set H := ⌊max 0 ((y0 : ℚ) - calculate_max_height_increase d)⌋ with hH
  set L := ⌈min ((HEIGHT : ℚ) - (h : ℚ)) ((y0 : ℚ) + calculate_max_height_decrease d)⌉ with hL
  have hm : 0 < (L - H + 1).toNat := by omega
  have hmod : r % (L - H + 1).toNat < (L - H + 1).toNat := Nat.mod_lt r hm
  refine ⟨H + ((r % (L - H + 1).toNat : ℕ) : ℤ), ?_, by omega, by omega⟩
  simp only [calculate_gap_position, randint, ← hH, ← hL]
  rw [if_pos hw]
  rfl

/-- Witness for C2 at `(500, 51, 165)` with oracle `7`. -/
theorem gap_position_in_window_witness :
    (⌊max 0 (((500 : ℤ) : ℚ) - calculate_max_height_increase 51)⌋ ≤
      ⌈min ((HEIGHT : ℚ) - ((165 : ℤ) : ℚ)) (((500 : ℤ) : ℚ) + calculate_max_height_decrease 51)⌉) ∧
    ∃ gp : ℤ,
      calculate_gap_position 500 51 165 7 =
        some (⌊max 0 (((500 : ℤ) : ℚ) - calculate_max_height_increase 51)⌋,
              ⌈min ((HEIGHT : ℚ) - ((165 : ℤ) : ℚ)) (((500 : ℤ) : ℚ) + calculate_max_height_decrease 51)⌉,
              gp) ∧
      ⌊max 0 (((500 : ℤ) : ℚ) - calculate_max_height_increase 51)⌋ ≤ gp ∧
      gp ≤ ⌈min ((HEIGHT : ℚ) - ((165 : ℤ) : ℚ)) (((500 : ℤ) : ℚ) + calculate_max_height_decrease 51)⌉ :=
  ⟨by decide, gap_position_in_window 500 51 165 7 (by decide)⟩

end GapPosition

end JumpOrDie

namespace JumpOrDie

section SpawnAndObstacle

/-- C3 (counterexample): with spawn-distance oracle `9` the sampled distance
is `60`, yet the obstacle spawned from the initial state is placed at world
position `471 = 420 + 0 + 51` — previous right edge plus the *minimum*
spawn distance — not at `420 + 0 + 60`; the random sample is discarded. -/
theorem spawn_distance_sample_unused_cex :
    (calculate_spawn_distance 9).map (fun t => t.2.2) = some 60 ∧
    (spawn_obstacle Game.init ⟨9, 0, 0, 0, 0⟩).map
      (fun g => g.obstacles.map Obstacle.world_x) = some [471] ∧
    (471 : ℚ) ≠ last_obstacle_x Game.init + (last_obstacle_width Game.init : ℚ) + 60 := by
  exact ⟨by decide, by decide, by decide⟩

/-- C3 (amended): every spawned obstacle is constructed at
`prevObstacleRight + min_dist` where `min_dist` is the *lower bound* of the
spawn-distance range; the randomly sampled distance is drawn but discarded,
and the same `min_dist` is the horizontal distance passed to the
reachability-window computation. -/
theorem spawn_obstacle_uses_min_distance (g : GameState) (r : Oracle) (g' : GameState)
    (h : spawn_obstacle g r = some g') :
    ∃ mn mx d gh hi lo gp : ℤ, ∃ ob : Obstacle,
      calculate_spawn_distance r.sd = some (mn, mx, d) ∧
      calculate_gap_height r.gh = some gh ∧
      calculate_gap_position (prev_gap_y g) mn gh r.gp = some (hi, lo, gp) ∧
      g'.obstacles = g.obstacles ++ [ob] ∧
      ob.world_x = last_obstacle_x g + (last_obstacle_width g : ℚ) + (mn : ℚ) ∧
      ob.gap = gh ∧
      ob.gap_y = max 0 (min (HEIGHT - gh) gp) := by
  obtain ⟨mn, mx, d, gh, hi, lo, gp, ob, h1, h2, h3, h4, h5⟩ :=
    spawn_obstacle_some g r g' h
  rw [mkObstacle_some] at h4
  obtain rfl := Option.some.inj h4
  exact ⟨mn, mx, d, gh, hi, lo, gp, _, h1, h2, h3, by rw [h5], rfl, rfl, rfl⟩

/-- Witness for the C3 amended theorem: spawn from the initial state. -/
theorem spawn_obstacle_uses_min_distance_witness :
    spawn_obstacle Game.init ⟨9, 0, 0, 0, 0⟩ =
      some { Game.init with
             obstacles := [⟨471, 25, (0, 0, 255), 165, 292, 0, 292, 457, 543⟩] } ∧
    ∃ mn mx d gh hi lo gp : ℤ, ∃ ob : Obstacle,
      calculate_spawn_distance 9 = some (mn, mx, d) ∧
      calculate_gap_height 0 = some gh ∧
      calculate_gap_position (prev_gap_y Game.init) mn gh 0 = some (hi, lo, gp) ∧
      ({ Game.init with
         obstacles := [⟨471, 25, (0, 0, 255), 165, 292, 0, 292, 457, 543⟩] } :
          GameState).obstacles = Game.init.obstacles ++ [ob] ∧
      ob.world_x = last_obstacle_x Game.init + (last_obstacle_width Game.init : ℚ) + (mn : ℚ) ∧
      ob.gap = gh ∧
      ob.gap_y = max 0 (min (HEIGHT - gh) gp) :=
  ⟨by decide, spawn_obstacle_uses_min_distance Game.init ⟨9, 0, 0, 0, 0⟩
    { Game.init with
      obstacles := [⟨471, 25, (0, 0, 255), 165, 292, 0, 292, 457, 543⟩] } (by decide)⟩

/-- C4 (counterexample): `Obstacle(0, 2000, 0)` — a gap taller than the
screen — is accepted and silently produces a malformed rectangle pair:
`gap_y + gap = 2000 > HEIGHT` and the bottom rectangle has height `-1000`. -/
theorem obstacle_clamp_cex :
    (mkObstacle 0 2000 0 0 0).map (fun o => (o.gap_y + o.gap, o.r2_height)) =
      some (2000, -1000) ∧
    ¬ ((2000 : ℤ) ≤ HEIGHT) ∧ ((-1000 : ℤ) < 0) := by
  exact ⟨by decide, by decide, by decide⟩

/-- C4 (amended): for every constructed obstacle the two rectangle heights
and the gap always partition the full height
(`r1_height + gap + r2_height = HEIGHT`), `gap_y ≥ 0`, and the top rectangle
is never negative; provided `gap ≤ HEIGHT`, additionally
`gap_y + gap ≤ HEIGHT` and the bottom rectangle height is non-negative.
For `gap > HEIGHT` the constructor silently produces a malformed pair. -/
theorem obstacle_rect_invariants (x : ℚ) (gap gy : ℤ) (rw rc : ℕ) (ob : Obstacle)
    (hob : mkObstacle x gap gy rw rc = some ob) :
    ob.r1_height + ob.gap + ob.r2_height = HEIGHT ∧
    0 ≤ ob.gap_y ∧ 0 ≤ ob.r1_height ∧
    (gap ≤ HEIGHT → ob.gap_y + ob.gap ≤ HEIGHT ∧ 0 ≤ ob.r2_height) := by
  rw [mkObstacle_some] at hob
  obtain rfl := Option.some.inj hob
  dsimp only
  omega

/-- Witness for the C4 amended theorem at `Obstacle(0, 165, 500)`. -/
theorem obstacle_rect_invariants_witness :
    mkObstacle 0 165 500 0 0 = some ⟨0, 25, (0, 0, 255), 165, 500, 0, 500, 665, 335⟩ ∧
    ((500 : ℤ) + 165 + 335 = HEIGHT ∧
     (0 : ℤ) ≤ 500 ∧ (0 : ℤ) ≤ 500 ∧
     ((165 : ℤ) ≤ HEIGHT → (500 : ℤ) + 165 ≤ HEIGHT ∧ (0 : ℤ) ≤ 335)) :=
  ⟨by decide, obstacle_rect_invariants 0 165 500 0 0
    ⟨0, 25, (0, 0, 255), 165, 500, 0, 500, 665, 335⟩ (by decide)⟩

/-- C10: the generator's draws are degenerate — the gap height is always
exactly `int(((2 * radius) + rise) * 1.5) = 165` (because `max_gap` is set
equal to `min_gap`), and every obstacle's width is exactly `25` (drawn from
`randint(25, 25)`); hence every spawned obstacle has width `25` and gap
`165`. -/
theorem generator_degenerate :
    (∀ r : ℕ, calculate_gap_height r =
      some (pyInt (((player_radius : ℚ) * 2 + gapRise) * (3/2)))) ∧
    pyInt (((player_radius : ℚ) * 2 + gapRise) * (3/2)) = 165 ∧
    (∀ (x : ℚ) (gap gy : ℤ) (rw rc : ℕ) (ob : Obstacle),
      mkObstacle x gap gy rw rc = some ob → ob.width = 25) ∧
    (∀ (g : GameState) (r : Oracle) (g' : GameState), spawn_obstacle g r = some g' →
      ∃ ob : Obstacle, g'.obstacles = g.obstacles ++ [ob] ∧
        ob.width = 25 ∧ ob.gap = 165) := by
  have hgh : ∀ r : ℕ, calculate_gap_height r =
      some (pyInt (((player_radius : ℚ) * 2 + gapRise) * (3/2))) := by
    intro r
    simp only [calculate_gap_height]
    exact randint_const _ _
  have h165 : pyInt (((player_radius : ℚ) * 2 + gapRise) * (3/2)) = 165 := by decide
  refine ⟨hgh, h165, ?_, ?_⟩
  · intro x gap gy rw rc ob hob
    rw [mkObstacle_some] at hob
    obtain rfl := Option.some.inj hob
    rfl
  · intro g r g' h
    obtain ⟨mn, mx, d, gh, hi, lo, gp, ob, h1, h2, h3, h4, h5⟩ :=
      spawn_obstacle_some g r g' h
    have hgh2 := hgh r.gh
    rw [h2, h165] at hgh2
    rw [mkObstacle_some] at h4
    obtain rfl := Option.some.inj h4
    exact ⟨_, by rw [h5], rfl, Option.some.inj hgh2⟩

/-- Witness for C10: the obstacle spawned from the initial state has width
`25` and gap `165`. -/
theorem generator_degenerate_witness :
    spawn_obstacle Game.init ⟨9, 0, 0, 0, 0⟩ =
      some { Game.init with
             obstacles := [⟨471, 25, (0, 0, 255), 165, 292, 0, 292, 457, 543⟩] } ∧
    ∃ ob : Obstacle,
      ({ Game.init with
         obstacles := [⟨471, 25, (0, 0, 255), 165, 292, 0, 292, 457, 543⟩] } :
          GameState).obstacles = Game.init.obstacles ++ [ob] ∧
      ob.width = 25 ∧ ob.gap = 165 :=
  ⟨by decide, generator_degenerate.2.2.2 Game.init ⟨9, 0, 0, 0, 0⟩
    { Game.init with
      obstacles := [⟨471, 25, (0, 0, 255), 165, 292, 0, 292, 457, 543⟩] } (by decide)⟩

end SpawnAndObstacle

end JumpOrDie

namespace JumpOrDie

section PlayerKinematics

/-- C5 (counterexample): one frame of the airtime loop inside
`calculate_spawn_distance`, started from `(y, vel) = (0, jump_power)`,
updates the position *before* applying gravity: it does not follow the
claimed `v += gravity; y += v` rule, and its resulting `y` differs from the
live player's `update_position` on the same state. -/
theorem integration_order_cex :
    airtimeStep 0 jump_power ≠ (0 + (jump_power + gravity), jump_power + gravity) ∧
    (airtimeStep 0 jump_power).1 ≠ (update_position ⟨0, jump_power⟩).y := by
  exact ⟨by decide, by decide⟩

/-- C5 (amended): the live player's `update_position` (when the ground clamp
does not fire), the non-jump frames of `calculate_max_height_increase`, and
every frame of `calculate_max_height_decrease` all apply gravity to the
velocity before updating the position, mapping `(vel, y)` to
`(vel + gravity, y + vel + gravity)`; the airtime loop inside
`calculate_spawn_distance` instead updates the position before applying
gravity, mapping `(vel, y)` to `(vel + gravity, y + vel)`. -/
theorem integration_order (v y m : ℚ) (i : ℕ)
    (hnoclamp : y + (v + gravity) < (HEIGHT : ℚ) - (player_radius : ℚ))
    (hnojump : i % frames_per_jump ≠ 0) :
    update_position ⟨y, v⟩ = ⟨y + (v + gravity), v + gravity⟩ ∧
    mhdStep (v, y) i = (v + gravity, y + (v + gravity)) ∧
    (mhiStep frames_per_jump (v, y, m) i).1 = v + gravity ∧
    (mhiStep frames_per_jump (v, y, m) i).2.1 = y + (v + gravity) ∧
    airtimeStep y v = (y + v, v + gravity) := by
  refine ⟨?_, rfl, ?_, ?_, rfl⟩
  · simp only [update_position]
    rw [if_neg (not_le.mpr hnoclamp)]
  · simp only [mhiStep]
    rw [if_neg hnojump]
  · simp only [mhiStep]
    rw [if_neg hnojump]

/-- Witness for the C5 amended theorem at `(v, y, m, i) = (0, 0, 0, 1)`. -/
theorem integration_order_witness :
    ((0 : ℚ) + ((0 : ℚ) + gravity) < (HEIGHT : ℚ) - (player_radius : ℚ)) ∧
    (1 % frames_per_jump ≠ 0) ∧
    (update_position ⟨0, 0⟩ = ⟨0 + (0 + gravity), 0 + gravity⟩ ∧
     mhdStep (0, 0) 1 = (0 + gravity, 0 + (0 + gravity)) ∧
     (mhiStep frames_per_jump (0, 0, 0) 1).1 = 0 + gravity ∧
     (mhiStep frames_per_jump (0, 0, 0) 1).2.1 = 0 + (0 + gravity) ∧
     airtimeStep 0 0 = (0 + 0, 0 + gravity)) :=
  ⟨by decide, by decide, integration_order 0 0 0 1 (by decide) (by decide)⟩

/-- C7: after every `update_position` the player's `y` is at most
`HEIGHT - radius`; when the clamp fires it sets `y` to exactly
`HEIGHT - radius` and `vel_y` to `0`; and since there is no ceiling clamp,
`y` can become arbitrarily negative. -/
theorem ground_clamp :
    (∀ p : PlayerState, (update_position p).y ≤ (HEIGHT : ℚ) - (player_radius : ℚ)) ∧
    (∀ p : PlayerState, (HEIGHT : ℚ) - (player_radius : ℚ) ≤ p.y + (p.vel_y + gravity) →
      update_position p = ⟨(HEIGHT : ℚ) - (player_radius : ℚ), 0⟩) ∧
    (∀ B : ℚ, ∃ p : PlayerState, (update_position p).y < B) := by
  refine ⟨?_, ?_, ?_⟩
  · intro p
    simp only [update_position]
    by_cases h : (HEIGHT : ℚ) - (player_radius : ℚ) ≤ p.y + (p.vel_y + gravity)
    · rw [if_pos h]
    · rw [if_neg h]
      exact (not_le.mp h).le
  · intro p h
    simp only [update_position]
    rw [if_pos h]
  · intro B
    rcases le_or_lt B ((HEIGHT : ℚ) - (player_radius : ℚ)) with hB | hB
    · refine ⟨⟨B - 1 - gravity, 0⟩, ?_⟩
      simp only [update_position]
      rw [if_neg (by intro hc; linarith)]
      show B - 1 - gravity + (0 + gravity) < B
      linarith
    · refine ⟨⟨0, 0⟩, ?_⟩
      have h08 : (update_position ⟨0, 0⟩).y = 4/5 := by decide
      have hval : (HEIGHT : ℚ) - (player_radius : ℚ) = 990 := by decide
      rw [h08]
      rw [hval] at hB
      linarith

/-- Witness for C7: the clamp fires from `(y, vel) = (1000, 0)`, and some
state falls below `-5`. -/
theorem ground_clamp_witness :
    ((HEIGHT : ℚ) - (player_radius : ℚ) ≤ (1000 : ℚ) + ((0 : ℚ) + gravity)) ∧
    update_position ⟨1000, 0⟩ = ⟨(HEIGHT : ℚ) - (player_radius : ℚ), 0⟩ ∧
    ∃ p : PlayerState, (update_position p).y < -5 :=
  ⟨by decide, ground_clamp.2.1 ⟨1000, 0⟩ (by decide), ground_clamp.2.2 (-5)⟩

end PlayerKinematics

section ResetGame

/-- C8: `reset_game` from any state yields the exact initial state of the
mutable fields: a freshly initialised player at `x = WIDTH * 0.25`,
`y = HEIGHT * 0.5`, `vel_y = 0`, with `world_x = 0`, no obstacles, and
`game_over = false`, regardless of the prior state. -/
theorem reset_game_yields_initial (g : GameState) :
    (reset_game g).player = Player.init ∧
    Player.init.y = (HEIGHT : ℚ) * (1/2) ∧
    Player.init.vel_y = 0 ∧
    player_x = (WIDTH : ℚ) * (1/4) ∧
    (reset_game g).world_x = 0 ∧
    (reset_game g).obstacles = [] ∧
    (reset_game g).game_over = false ∧
    projMut (reset_game g) = projMut Game.init :=
  ⟨rfl, rfl, rfl, rfl, rfl, rfl, rfl, rfl⟩

end ResetGame

end JumpOrDie

namespace JumpOrDie

section Collision

/-- C6: `collision` returns `true` iff some live obstacle has a rectangle
(top or bottom) whose closest point to the player's centre — obtained by
clamping the centre's coordinates to the rectangle — lies at squared
distance strictly less than `radius²`; a player of radius `0` centred
exactly on a rectangle corner never collides (the test is strict), and a
player whose centre is strictly inside a rectangle always collides when its
radius is positive. -/
theorem collision_characterisation :
    (∀ g : GameState, collision g = true ↔
      ∃ o ∈ g.obstacles, ∃ p ∈ [(o.r1_y, o.r1_height), (o.r2_y, o.r2_height)],
        (player_x - max (get_screen_x o g.world_x)
            (min player_x (get_screen_x o g.world_x + (o.width : ℚ)))) *
          (player_x - max (get_screen_x o g.world_x)
            (min player_x (get_screen_x o g.world_x + (o.width : ℚ)))) +
        (g.player.y - max ((p.1 : ℚ))
            (min g.player.y ((p.1 : ℚ) + (p.2 : ℚ)))) *
          (g.player.y - max ((p.1 : ℚ))
            (min g.player.y ((p.1 : ℚ) + (p.2 : ℚ)))) <
        (player_radius : ℚ) * (player_radius : ℚ)) ∧
    (∀ (px py rx : ℚ) (w ry rh : ℤ), 0 ≤ w → 0 ≤ rh →
      (px = rx ∨ px = rx + (w : ℚ)) → (py = (ry : ℚ) ∨ py = (ry : ℚ) + (rh : ℚ)) →
      circleRectCollides px py 0 rx w ry rh = false) ∧
    (∀ (px py rad rx : ℚ) (w ry rh : ℤ),
      rx < px → px < rx + (w : ℚ) → (ry : ℚ) < py → py < (ry : ℚ) + (rh : ℚ) →
      0 < rad → circleRectCollides px py rad rx w ry rh = true) := by
  refine ⟨?_, ?_, ?_⟩
  · intro g
    simp only [collision, circleRectCollides, List.any_eq_true, Bool.or_eq_true,
      decide_eq_true_eq, List.mem_cons, List.mem_singleton, List.not_mem_nil,
      or_false]
    constructor
    · rintro ⟨o, ho, h⟩
      rcases h with h | h
      · exact ⟨o, ho, (o.r1_y, o.r1_height), Or.inl rfl, h⟩
      · exact ⟨o, ho, (o.r2_y, o.r2_height), Or.inr rfl, h⟩
    · rintro ⟨o, ho, p, hp, h⟩
      rcases hp with rfl | rfl
      · exact ⟨o, ho, Or.inl h⟩
      · exact ⟨o, ho, Or.inr h⟩
  · intro px py rx w ry rh _hw _hrh _hx _hy
    simp only [circleRectCollides, decide_eq_false_iff_not, not_lt, mul_zero]
    exact add_nonneg (mul_self_nonneg _) (mul_self_nonneg _)
  · intro px py rad rx w ry rh h1 h2 h3 h4 h5
    simp only [circleRectCollides, decide_eq_true_eq]
    rw [min_eq_left h2.le, max_eq_right h1.le, min_eq_left h4.le, max_eq_right h3.le]
    simpa using mul_pos h5 h5

/-- Witness for C6: a radius-zero player on the corner of the rectangle
`(5, 7, 3, 4)` does not collide; a radius-one player strictly inside it
does. -/
theorem collision_characterisation_witness :
    circleRectCollides 5 7 0 5 3 7 4 = false ∧
    circleRectCollides 6 8 1 5 3 7 4 = true :=
  ⟨collision_characterisation.2.1 5 7 5 3 7 4 (by decide) (by decide)
      (Or.inl rfl) (Or.inl rfl),
   collision_characterisation.2.2 6 8 1 5 3 7 4 (by decide) (by decide)
      (by decide) (by decide) (by decide)⟩

end Collision

end JumpOrDie

namespace JumpOrDie

section Noninterference

/-- Spawning `Game.spawn_obstacle` never reads the difficulty level or tables. -/
theorem spawn_obstacle_setCfg (g : GameState) (d : ℤ) (t1 t2 t3 t4 : List (ℤ × ℚ))
    (r : Oracle) :
    spawn_obstacle (setCfg g d t1 t2 t3 t4) r =
      (spawn_obstacle g r).map (fun h => setCfg h d t1 t2 t3 t4) := by
  simp only [spawn_obstacle,
    show prev_gap_y (setCfg g d t1 t2 t3 t4) = prev_gap_y g from rfl,
    show last_obstacle_x (setCfg g d t1 t2 t3 t4) = last_obstacle_x g from rfl,
    show last_obstacle_width (setCfg g d t1 t2 t3 t4) = last_obstacle_width g from rfl]
  cases calculate_spawn_distance r.sd with
  | none => rfl
  | some t =>
    obtain ⟨mn, mx, dr⟩ := t
    dsimp only [bind, Option.bind]
    cases calculate_gap_height r.gh with
    | none => rfl
    | some gh =>
      dsimp only [bind, Option.bind]
      cases calculate_gap_position (prev_gap_y g) mn gh r.gp with
      | none => rfl
      | some t3 =>
        obtain ⟨hi, lo, gp⟩ := t3
        dsimp only [bind, Option.bind]
        rw [mkObstacle_some]
        rfl

/-- The cleanup step never reads the difficulty level or tables. -/
theorem cleanup_setCfg (g : GameState) (d : ℤ) (t1 t2 t3 t4 : List (ℤ × ℚ)) :
    cleanup (setCfg g d t1 t2 t3 t4) = setCfg (cleanup g) d t1 t2 t3 t4 := rfl

/-- The collision check never reads the difficulty level or tables. -/
theorem check_collision_setCfg (g : GameState) (d : ℤ) (t1 t2 t3 t4 : List (ℤ × ℚ)) :
    check_collision (setCfg g d t1 t2 t3 t4) = setCfg (check_collision g) d t1 t2 t3 t4 := by
  simp only [check_collision, show collision (setCfg g d t1 t2 t3 t4) = collision g from rfl]
  cases collision g with
  | false => rfl
  | true => rfl

/-- One world tick never reads the difficulty level or tables. -/
theorem update_world_setCfg (g : GameState) (d : ℤ) (t1 t2 t3 t4 : List (ℤ × ℚ))
    (r : Oracle) :
    update_world (setCfg g d t1 t2 t3 t4) r =
      (update_world g r).map (fun h => setCfg h d t1 t2 t3 t4) := by
  simp only [update_world,
    show (setCfg g d t1 t2 t3 t4).game_over = g.game_over from rfl,
    show scroll_and_move (setCfg g d t1 t2 t3 t4) = setCfg (scroll_and_move g) d t1 t2 t3 t4
      from rfl,
    show should_spawn (setCfg (scroll_and_move g) d t1 t2 t3 t4) =
      should_spawn (scroll_and_move g) from rfl,
    spawn_obstacle_setCfg]
  cases g.game_over with
  | true => rfl
  | false =>
    simp only [Bool.false_eq_true, if_false]
    cases should_spawn (scroll_and_move g) with
    | false =>
      simp only [Bool.false_eq_true, if_false, Option.map_some', cleanup_setCfg,
        check_collision_setCfg]
    | true =>
      rw [if_pos rfl, if_pos rfl]
      cases spawn_obstacle (scroll_and_move g) r with
      | none => rfl
      | some gs =>
        simp only [Option.map_some', cleanup_setCfg, check_collision_setCfg]

/-- A whole run never reads the difficulty level or tables. -/
theorem runTicks_setCfg (g : GameState) (d : ℤ) (t1 t2 t3 t4 : List (ℤ × ℚ))
    (os : List Oracle) :
    runTicks (setCfg g d t1 t2 t3 t4) os =
      (runTicks g os).map (fun h => setCfg h d t1 t2 t3 t4) := by
  induction os generalizing g with
  | nil => rfl
  | cons r rs ih =>
    simp only [runTicks, update_world_setCfg]
    cases update_world g r with
    | none => rfl
    | some g1 =>
      exact ih g1

/-- C9: obstacle generation is independent of the difficulty level — the
`difficulty` field and the four difficulty tables are never read by any
update or generation routine, so two runs whose states are identical except
for the stored difficulty value and tables produce identical mutable states
(player, world offset, obstacle sequence, and game-over flag) under the same
random draws. -/
theorem difficulty_noninterference (g : GameState) (d : ℤ)
    (t1 t2 t3 t4 : List (ℤ × ℚ)) (os : List Oracle) :
    (runTicks (setCfg g d t1 t2 t3 t4) os).map projMut =
      (runTicks g os).map projMut := by
  rw [runTicks_setCfg]
  cases runTicks g os with
  | none => rfl
  | some h => rfl

end Noninterference

end JumpOrDie
